import Mathlib

/-!
Shallow embedding of the origami-lattice generator program (src/main.py).

The program defines three pure pattern generators (Miura-ori, Waterbomb,
Yoshimura), each returning a tuple of vertices (3D points), faces (lists of
vertex indices), mountain-fold edges and valley-fold edges, plus a renderer
that turns such a tuple into a list of plotly traces (one triangulated mesh
per face, one line per fold edge).

Coordinates are modelled over the reals; the Python floats compute the same
closed-form trigonometric expressions.  Fold edges, written `[p, q]` in the
Python source, are modelled as pairs `(p, q)`.
-/

/-- A pattern instance: the tuple
`(vertices, faces, mountain_folds, valley_folds)` returned by each
generator in src/main.py. -/
structure PatternInstance where
  vertices : List (ℝ × ℝ × ℝ)
  faces : List (List ℕ)
  mountain_folds : List (ℕ × ℕ)
  valley_folds : List (ℕ × ℕ)

/-- numpy's `np.radians`: degrees to radians. -/
noncomputable def radians (angle : ℝ) : ℝ := angle * (Real.pi / 180)

/-- Embedding of `create_miura_ori` from src/main.py (lines 5-35): two adjacent
parallelograms; `h = size/2` in the source is unused in vertex placement. -/
noncomputable def create_miura_ori (size : ℝ) (angle : ℝ) : PatternInstance :=
  let theta := radians angle
  let a := size
  let b := size
  { vertices :=
      [(0, 0, 0),
       (a * Real.cos theta, 0, a * Real.sin theta),
       (a * Real.cos theta, b, a * Real.sin theta),
       (0, b, 0),
       (2 * a * Real.cos theta, 0, 0),
       (2 * a * Real.cos theta, b, 0)],
    faces := [[0, 1, 2, 3], [1, 4, 5, 2]],
    mountain_folds := [(1, 2)],
    valley_folds := [(0, 1), (2, 3), (1, 4), (2, 5)] }

/-- Embedding of `create_waterbomb` from src/main.py (lines 37-61): a centre vertex plus
six rim vertices, six triangular faces, alternating radial folds. -/
noncomputable def create_waterbomb (size : ℝ) : PatternInstance :=
  { vertices :=
      [(0, 0, 0),
       (size, 0, 0),
       (size * Real.cos (Real.pi / 3), size * Real.sin (Real.pi / 3), 0),
       (-(size * Real.cos (Real.pi / 3)), size * Real.sin (Real.pi / 3), 0),
       (-size, 0, 0),
       (-(size * Real.cos (Real.pi / 3)), -(size * Real.sin (Real.pi / 3)), 0),
       (size * Real.cos (Real.pi / 3), -(size * Real.sin (Real.pi / 3)), 0)],
    faces := [[0, 1, 2], [0, 2, 3], [0, 3, 4], [0, 4, 5], [0, 5, 6], [0, 6, 1]],
    mountain_folds := [(0, 2), (0, 4), (0, 6)],
    valley_folds := [(0, 1), (0, 3), (0, 5)] }

/-- Embedding of `create_yoshimura` from src/main.py (lines 63-94): for each segment a
base vertex at `z = 0` and a top vertex at `z = size/2`, one quad face per
segment, and the vertical edge of each segment classified by parity. -/
noncomputable def create_yoshimura (size : ℝ) (num_segments : ℕ) : PatternInstance :=
  let angle := 2 * Real.pi / (num_segments : ℝ)
  let height := size / 2
  { vertices :=
      (List.range num_segments).flatMap (fun i =>
        [(size * Real.cos (i * angle), size * Real.sin (i * angle), 0),
         (size * Real.cos (i * angle), size * Real.sin (i * angle), height)]),
    faces :=
      (List.range num_segments).map (fun i =>
        [2 * i, 2 * i + 1, 2 * ((i + 1) % num_segments) + 1,
         2 * ((i + 1) % num_segments)]),
    mountain_folds :=
      ((List.range num_segments).filter (fun i => i % 2 == 0)).map
        (fun i => (2 * i, 2 * i + 1)),
    valley_folds :=
      ((List.range num_segments).filter (fun i => ¬ i % 2 == 0)).map
        (fun i => (2 * i, 2 * i + 1)) }


/-- A plotly trace as produced by `plot_origami_lattice`: either a `Mesh3d`
face surface (coordinate lists, fan index lists `i`, `j`, `k`, opacity,
colorscale) or a `Scatter3d` fold line (two-point coordinate lists, color,
width, dashed flag, legend name). -/
inductive Trace where
  | mesh (x y z : List ℝ) (i j k : List ℕ) (opacity : ℚ) (colorscale : String)
  | line (x y z : List ℝ) (color : String) (width : ℕ) (dashed : Bool)
      (name : String)

/-- x-coordinate of a vertex. -/
def vx (v : ℝ × ℝ × ℝ) : ℝ := v.1

/-- y-coordinate of a vertex. -/
def vy (v : ℝ × ℝ × ℝ) : ℝ := v.2.1

/-- z-coordinate of a vertex. -/
def vz (v : ℝ × ℝ × ℝ) : ℝ := v.2.2

/-- Embedding of `plot_origami_lattice` from src/main.py (lines 96-151), modelled as the
list of traces added to the figure, in order: one `Mesh3d` per face with fan
indices `i = [0]*(len(face)-2)`, `j = range(1, len(face)-1)`,
`k = range(2, len(face))` and opacity 0.7, then one red solid line per
mountain fold, then one blue dashed line per valley fold. -/
noncomputable def plot_origami_lattice (vertices : List (ℝ × ℝ × ℝ))
    (faces : List (List ℕ)) (mountain_folds valley_folds : List (ℕ × ℕ))
    (colorscale : String) : List Trace :=
  (faces.map (fun face =>
    let vertices_face := face.map (fun idx => vertices.getD idx (0, 0, 0))
    Trace.mesh (vertices_face.map vx) (vertices_face.map vy)
      (vertices_face.map vz)
      (List.replicate (face.length - 2) 0)
      (List.range' 1 (face.length - 2))
      (List.range' 2 (face.length - 2))
      (7 / 10) colorscale))
  ++ (mountain_folds.map (fun fold =>
    Trace.line
      [vx (vertices.getD fold.1 (0, 0, 0)), vx (vertices.getD fold.2 (0, 0, 0))]
      [vy (vertices.getD fold.1 (0, 0, 0)), vy (vertices.getD fold.2 (0, 0, 0))]
      [vz (vertices.getD fold.1 (0, 0, 0)), vz (vertices.getD fold.2 (0, 0, 0))]
      "red" 4 false "Mountain fold"))
  ++ (valley_folds.map (fun fold =>
    Trace.line
      [vx (vertices.getD fold.1 (0, 0, 0)), vx (vertices.getD fold.2 (0, 0, 0))]
      [vy (vertices.getD fold.1 (0, 0, 0)), vy (vertices.getD fold.2 (0, 0, 0))]
      [vz (vertices.getD fold.1 (0, 0, 0)), vz (vertices.getD fold.2 (0, 0, 0))]
      "blue" 4 true "Valley fold"))

/-- Placeholder trace used as the default for out-of-range list lookups. -/
def defaultTrace : Trace := Trace.line [] [] [] "" 0 false ""

/-- The triangles emitted by a trace: for a mesh trace, the zip of its three
index lists; a line trace emits none. -/
def traceTriangles : Trace → List (ℕ × ℕ × ℕ)
  | Trace.mesh _ _ _ i j k _ _ => i.zip (j.zip k)
  | Trace.line _ _ _ _ _ _ _ => []

/-- The opacity of a mesh trace, if any. -/
def traceOpacity : Trace → Option ℚ
  | Trace.mesh _ _ _ _ _ _ o _ => some o
  | Trace.line _ _ _ _ _ _ _ => none

/-- The colorscale of a mesh trace, if any. -/
def traceColorscale : Trace → Option String
  | Trace.mesh _ _ _ _ _ _ _ c => some c
  | Trace.line _ _ _ _ _ _ _ => none

/-- Whether a trace is a face surface (mesh). -/
def isMesh : Trace → Bool
  | Trace.mesh _ _ _ _ _ _ _ _ => true
  | Trace.line _ _ _ _ _ _ _ => false

lemma range'_zip_succ (n : ℕ) : ∀ a : ℕ,
    (List.range' a n).zip (List.range' (a + 1) n) =
      (List.range' a n).map (fun m => (m, m + 1)) := by
  induction n with
  | zero => intro a; rfl
  | succ n ih =>
      intro a
      rw [List.range'_succ, List.range'_succ, List.zip_cons_cons, ih (a + 1),
        List.map_cons]

lemma replicate_zip {α : Type} (b : ℕ) : ∀ (l : List α),
    (List.replicate l.length b).zip l = l.map (fun x => (b, x)) := by
  intro l
  induction l with
  | nil => rfl
  | cons x xs ih =>
      rw [List.length_cons, List.replicate_succ, List.zip_cons_cons, ih,
        List.map_cons]

/-- The fan triangulation encoded by the three index lists of a face mesh:
triangles `(0, m, m+1)` for `m = 1 .. n` where `n = len(face) - 2`. -/
lemma fan_triangles (n : ℕ) :
    (List.replicate n (0 : ℕ)).zip
        ((List.range' 1 n).zip (List.range' 2 n)) =
      (List.range' 1 n).map (fun m => (0, m, m + 1)) := by
  have h2 : (2 : ℕ) = 1 + 1 := rfl
  rw [h2, range'_zip_succ n 1]
  have hlen : ((List.range' 1 n).map (fun m => (m, m + 1))).length = n := by
    rw [List.length_map, List.length_range']
  calc (List.replicate n (0 : ℕ)).zip ((List.range' 1 n).map fun m => (m, m + 1))
      = (List.replicate ((List.range' 1 n).map fun m => (m, m + 1)).length
          (0 : ℕ)).zip ((List.range' 1 n).map fun m => (m, m + 1)) := by
        rw [hlen]
    _ = ((List.range' 1 n).map fun m => (m, m + 1)).map
          (fun x => ((0 : ℕ), x)) := replicate_zip 0 _
    _ = (List.range' 1 n).map (fun m => (0, m, m + 1)) := by
        rw [List.map_map]; rfl

/-- The pattern families offered by the app (src/main.py lines 165-168). -/
inductive PatternType where
  | miura_ori
  | waterbomb
  | yoshimura

/-- The parameters the app collects for a generator invocation
(src/main.py lines 170-175). -/
structure GenParams where
  size : ℝ
  angle : ℝ
  num_segments : ℕ

/-- The generator dispatch of the app (src/main.py lines 185-190): select
the generator by pattern family and invoke it on the collected parameters. -/
noncomputable def generate : PatternType → GenParams → PatternInstance
  | PatternType.miura_ori, prm => create_miura_ori prm.size prm.angle
  | PatternType.waterbomb, prm => create_waterbomb prm.size
  | PatternType.yoshimura, prm => create_yoshimura prm.size prm.num_segments

/-- Claim C1, counterexample: at the degenerate input `size = 0`,
`num_segments = 2` the Yoshimura generator does not fail with any
InvalidParameter condition — it returns a pattern instance whose four
vertices all coincide at the origin, i.e. a zero-area mesh. -/
theorem create_yoshimura_degenerate_counterexample :
    (create_yoshimura 0 2).vertices =
      [(0, 0, 0), (0, 0, 0), (0, 0, 0), (0, 0, 0)] := by
  norm_num [create_yoshimura, List.range_succ]

/-- Claim C1, amended: the generators perform no input validation; for
degenerate inputs they silently return a degenerate pattern instance.  At
`size = 0`, `num_segments = 2` the Yoshimura generator returns four
coincident vertices at the origin, two mutually overlapping quadrilateral
faces, one mountain fold and one valley fold. -/
theorem create_yoshimura_no_validation :
    (create_yoshimura 0 2).vertices =
      [(0, 0, 0), (0, 0, 0), (0, 0, 0), (0, 0, 0)] ∧
    (create_yoshimura 0 2).faces = [[0, 1, 3, 2], [2, 3, 1, 0]] ∧
    (create_yoshimura 0 2).mountain_folds = [(0, 1)] ∧
    (create_yoshimura 0 2).valley_folds = [(2, 3)] := by
  refine ⟨?_, by decide, by decide, by decide⟩
  norm_num [create_yoshimura, List.range_succ]

/-- Claim C2, counterexample: for Yoshimura with `size = 1`,
`num_segments = 6`, the last two indices of face 0 are `[3, 2]` while the
first two indices of face 1 are `[2, 3]`: they are not equal as an ordered
pair. -/
theorem yoshimura_ring_order_counterexample :
    ((create_yoshimura 1 6).faces.getD 0 []).drop 2 ≠
      ((create_yoshimura 1 6).faces.getD 1 []).take 2 := by
  decide

/-- Claim C2, amended: for Yoshimura with `size = 1`, `num_segments = 6`,
the output has exactly 12 vertices and 6 quadrilateral faces forming a
closed ring in which the last two indices of face `i` are the first two
indices of face `(i+1) mod 6` in reverse order, with exactly 3 mountain
folds (even segments) and 3 valley folds (odd segments). -/
theorem yoshimura_six_segments :
    (create_yoshimura 1 6).vertices.length = 12 ∧
    (create_yoshimura 1 6).faces.length = 6 ∧
    (∀ f ∈ (create_yoshimura 1 6).faces, f.length = 4) ∧
    (∀ fi ∈ List.range 6,
      ((create_yoshimura 1 6).faces.getD fi []).drop 2 =
        (((create_yoshimura 1 6).faces.getD ((fi + 1) % 6) []).take 2).reverse) ∧
    (create_yoshimura 1 6).mountain_folds = [(0, 1), (4, 5), (8, 9)] ∧
    (create_yoshimura 1 6).valley_folds = [(2, 3), (6, 7), (10, 11)] := by
  decide

/-- Claim C9: generation is deterministic — for every pattern family, equal
parameter records produce identical pattern instances. -/
theorem generate_deterministic (pt : PatternType) (p₁ p₂ : GenParams)
    (h : p₁ = p₂) : generate pt p₁ = generate pt p₂ := by
  rw [h]

/-- Witness for claim C9 at the app defaults (Miura-ori, size 1, angle 45,
6 segments). -/
theorem generate_deterministic_witness :
    GenParams.mk 1 45 6 = GenParams.mk 1 45 6 ∧
      generate PatternType.miura_ori (GenParams.mk 1 45 6) =
        generate PatternType.miura_ori (GenParams.mk 1 45 6) :=
  ⟨rfl, generate_deterministic PatternType.miura_ori _ _ rfl⟩

/-- The output shape claimed for the Miura-ori generator: the six vertex
positions with `θ = radians angle`, `a = b = size`, the two parallelogram
faces, the central mountain fold and the four perimeter valley folds. -/
def MiuraShape (size angle : ℝ) : Prop :=
  (create_miura_ori size angle).vertices =
    [(0, 0, 0),
     (size * Real.cos (radians angle), 0, size * Real.sin (radians angle)),
     (size * Real.cos (radians angle), size, size * Real.sin (radians angle)),
     (0, size, 0),
     (2 * size * Real.cos (radians angle), 0, 0),
     (2 * size * Real.cos (radians angle), size, 0)] ∧
  (create_miura_ori size angle).faces = [[0, 1, 2, 3], [1, 4, 5, 2]] ∧
  (create_miura_ori size angle).mountain_folds = [(1, 2)] ∧
  (create_miura_ori size angle).valley_folds =
    [(0, 1), (2, 3), (1, 4), (2, 5)]

/-- Claim C5: for every `size > 0` and angle, the Miura-ori generator
returns exactly the six claimed vertices, the two faces `[0,1,2,3]` and
`[1,4,5,2]`, the single mountain fold `(1,2)` and the four valley folds;
and at `size = 1`, `angle = 45` vertex 1 is `(cos(π/4), 0, sin(π/4))`. -/
theorem create_miura_ori_exact :
    (∀ size angle : ℝ, 0 < size → MiuraShape size angle) ∧
    (create_miura_ori 1 45).vertices.getD 1 (0, 0, 0) =
      (Real.cos (Real.pi / 4), 0, Real.sin (Real.pi / 4)) := by
  constructor
  · intro size angle _
    exact ⟨rfl, rfl, rfl, rfl⟩
  · have h45 : radians 45 = Real.pi / 4 := by
      unfold radians; ring
    simp [create_miura_ori, h45]

/-- Witness for claim C5 at `size = 1`, `angle = 45`. -/
theorem create_miura_ori_exact_witness : (0 : ℝ) < 1 ∧ MiuraShape 1 45 :=
  ⟨by norm_num, create_miura_ori_exact.1 1 45 (by norm_num)⟩

/-- The output shape claimed for the Waterbomb generator: a centre vertex
plus six rim vertices at 60-degree increments on a circle of radius `size`
at `z = 0`, six triangular fan faces, and alternating mountain/valley
spokes. -/
def WaterbombShape (size : ℝ) : Prop :=
  (create_waterbomb size).vertices =
    (0, 0, 0) :: (List.range 6).map (fun k =>
      (size * Real.cos (k * (Real.pi / 3)),
       size * Real.sin (k * (Real.pi / 3)), 0)) ∧
  (create_waterbomb size).faces =
    (List.range 6).map (fun k => [0, k + 1, (k + 1) % 6 + 1]) ∧
  (create_waterbomb size).mountain_folds = [(0, 2), (0, 4), (0, 6)] ∧
  (create_waterbomb size).valley_folds = [(0, 1), (0, 3), (0, 5)]

/-- Claim C6: for every `size > 0` the Waterbomb generator returns the
centre plus six rim vertices at 60-degree increments at `z = 0`, the six
triangular fan faces, mountain spokes to vertices 2, 4, 6 and valley spokes
to vertices 1, 3, 5; at `size = 1`, vertex 1 is `(1,0,0)` and vertex 2 is
`(cos 60°, sin 60°, 0)`. -/
theorem create_waterbomb_exact :
    (∀ size : ℝ, 0 < size → WaterbombShape size) ∧
    (create_waterbomb 1).vertices.getD 1 (0, 0, 0) = (1, 0, 0) ∧
    (create_waterbomb 1).vertices.getD 2 (0, 0, 0) =
      (Real.cos (radians 60), Real.sin (radians 60), 0) := by
  have h60 : radians 60 = Real.pi / 3 := by unfold radians; ring
  have hc2 : Real.cos (2 * (Real.pi / 3)) = -Real.cos (Real.pi / 3) := by
    rw [show 2 * (Real.pi / 3) = Real.pi - Real.pi / 3 by ring, Real.cos_pi_sub]
  have hs2 : Real.sin (2 * (Real.pi / 3)) = Real.sin (Real.pi / 3) := by
    rw [show 2 * (Real.pi / 3) = Real.pi - Real.pi / 3 by ring, Real.sin_pi_sub]
  have hc3 : Real.cos (3 * (Real.pi / 3)) = -1 := by
    rw [show 3 * (Real.pi / 3) = Real.pi by ring, Real.cos_pi]
  have hs3 : Real.sin (3 * (Real.pi / 3)) = 0 := by
    rw [show 3 * (Real.pi / 3) = Real.pi by ring, Real.sin_pi]
  have hc4 : Real.cos (4 * (Real.pi / 3)) = -Real.cos (Real.pi / 3) := by
    rw [show 4 * (Real.pi / 3) = Real.pi / 3 + Real.pi by ring, Real.cos_add_pi]
  have hs4 : Real.sin (4 * (Real.pi / 3)) = -Real.sin (Real.pi / 3) := by
    rw [show 4 * (Real.pi / 3) = Real.pi / 3 + Real.pi by ring, Real.sin_add_pi]
  have hc5 : Real.cos (5 * (Real.pi / 3)) = Real.cos (Real.pi / 3) := by
    rw [show 5 * (Real.pi / 3) = 2 * Real.pi - Real.pi / 3 by ring,
      Real.cos_two_pi_sub]
  have hs5 : Real.sin (5 * (Real.pi / 3)) = -Real.sin (Real.pi / 3) := by
    rw [show 5 * (Real.pi / 3) = 2 * Real.pi - Real.pi / 3 by ring,
      Real.sin_two_pi_sub]
  refine ⟨fun size _ => ⟨?_, ?_, rfl, rfl⟩, ?_, ?_⟩
  · show [((0 : ℝ), (0 : ℝ), (0 : ℝ)),
        (size, 0, 0),
        (size * Real.cos (Real.pi / 3), size * Real.sin (Real.pi / 3), 0),
        (-(size * Real.cos (Real.pi / 3)), size * Real.sin (Real.pi / 3), 0),
        (-size, 0, 0),
        (-(size * Real.cos (Real.pi / 3)), -(size * Real.sin (Real.pi / 3)), 0),
        (size * Real.cos (Real.pi / 3), -(size * Real.sin (Real.pi / 3)), 0)] =
      (0, 0, 0) :: (List.range 6).map (fun k =>
        (size * Real.cos (k * (Real.pi / 3)),
         size * Real.sin (k * (Real.pi / 3)), 0))
    simp only [List.range_succ, List.range_zero, List.map_append, List.map_cons,
      List.map_nil, List.nil_append, List.cons_append, List.singleton_append]
    norm_num [hc2, hs2, hc3, hs3, hc4, hs4, hc5, hs5]
  · show ([[0, 1, 2], [0, 2, 3], [0, 3, 4], [0, 4, 5], [0, 5, 6], [0, 6, 1]]
        : List (List ℕ)) =
      (List.range 6).map (fun k => [0, k + 1, (k + 1) % 6 + 1])
    decide
  · simp [create_waterbomb]
  · rw [h60]
    simp [create_waterbomb]

/-- Witness for claim C6 at `size = 1`. -/
theorem create_waterbomb_exact_witness : (0 : ℝ) < 1 ∧ WaterbombShape 1 :=
  ⟨by norm_num, create_waterbomb_exact.1 1 (by norm_num)⟩

lemma pairs_flatMap_length {α : Type} (f g : ℕ → α) :
    ∀ n : ℕ, ((List.range n).flatMap (fun j => [f j, g j])).length = 2 * n := by
  intro n
  induction n with
  | zero => rfl
  | succ n ih =>
      have h2 : (([n] : List ℕ).flatMap (fun j => [f j, g j])).length = 2 := rfl
      rw [List.range_succ, List.flatMap_append, List.length_append, ih, h2]
      omega

lemma pairs_flatMap_getD {α : Type} (f g : ℕ → α) (d : α) :
    ∀ n i : ℕ, i < n →
      ((List.range n).flatMap (fun j => [f j, g j])).getD (2 * i) d = f i ∧
      ((List.range n).flatMap (fun j => [f j, g j])).getD (2 * i + 1) d = g i := by
  intro n
  induction n with
  | zero => intro i hi; exact absurd hi (Nat.not_lt_zero i)
  | succ n ih =>
      intro i hi
      rw [List.range_succ, List.flatMap_append]
      have hlen := pairs_flatMap_length f g n
      by_cases h : i < n
      · rw [List.getD_append _ _ _ _ (by omega), List.getD_append _ _ _ _ (by omega)]
        exact ih i h
      · have hin : i = n := by omega
        subst hin
        constructor
        · rw [List.getD_append_right _ _ _ _ (by omega), hlen]
          simp
        · rw [List.getD_append_right _ _ _ _ (by omega), hlen]
          simp

/-- The output shape claimed for the Yoshimura generator with `n` segments:
`2n` vertices (base at `z = 0` and top at `z = size/2` for each segment, at
angle `i·(2π/n)` and radius `size`), one quadrilateral face per segment, and
the vertical segment edge classified mountain/valley by parity. -/
def YoshimuraShape (size : ℝ) (n : ℕ) : Prop :=
  (create_yoshimura size n).vertices.length = 2 * n ∧
  (∀ i, i < n →
    (create_yoshimura size n).vertices.getD (2 * i) (0, 0, 0) =
      (size * Real.cos (i * (2 * Real.pi / n)),
       size * Real.sin (i * (2 * Real.pi / n)), 0) ∧
    (create_yoshimura size n).vertices.getD (2 * i + 1) (0, 0, 0) =
      (size * Real.cos (i * (2 * Real.pi / n)),
       size * Real.sin (i * (2 * Real.pi / n)), size / 2)) ∧
  (create_yoshimura size n).faces.length = n ∧
  (∀ i, i < n →
    (create_yoshimura size n).faces.getD i [] =
      [2 * i, 2 * i + 1, 2 * ((i + 1) % n) + 1, 2 * ((i + 1) % n)]) ∧
  (∀ i, i < n →
    (i % 2 = 0 → (2 * i, 2 * i + 1) ∈ (create_yoshimura size n).mountain_folds) ∧
    (i % 2 = 1 → (2 * i, 2 * i + 1) ∈ (create_yoshimura size n).valley_folds))

/-- Claim C7: for every `size > 0` and `num_segments ≥ 3` the Yoshimura
generator places base/top vertex pairs at angle `i·(2π/n)` and radius
`size` with heights `0` and `size/2`, emits one quadrilateral face
`[base_i, top_i, top_{i+1 mod n}, base_{i+1 mod n}]` per segment, and puts
the vertical edge `(2i, 2i+1)` among the mountain folds when `i` is even
and among the valley folds when `i` is odd. -/
theorem create_yoshimura_structure :
    ∀ (size : ℝ) (n : ℕ), 0 < size → 3 ≤ n → YoshimuraShape size n := by
  intro size n _ hn
  refine ⟨?_, ?_, ?_, ?_, ?_⟩
  · exact pairs_flatMap_length _ _ n
  · intro i hi
    exact pairs_flatMap_getD _ _ _ n i hi
  · simp [create_yoshimura]
  · intro i hi
    have hl : (create_yoshimura size n).faces.length = n := by
      simp [create_yoshimura]
    rw [List.getD_eq_getElem _ _ (by rw [hl]; exact hi)]
    simp [create_yoshimura]
  · intro i hi
    constructor
    · intro hpar
      exact List.mem_map.mpr
        ⟨i, List.mem_filter.mpr ⟨List.mem_range.mpr hi, by simp [hpar]⟩, rfl⟩
    · intro hpar
      exact List.mem_map.mpr
        ⟨i, List.mem_filter.mpr ⟨List.mem_range.mpr hi, by simp [hpar]⟩, rfl⟩

/-- Witness for claim C7 at `size = 1`, `num_segments = 3`. -/
theorem create_yoshimura_structure_witness :
    (0 : ℝ) < 1 ∧ 3 ≤ 3 ∧ YoshimuraShape 1 3 :=
  ⟨by norm_num, le_refl 3, create_yoshimura_structure 1 3 (by norm_num) (le_refl 3)⟩

/-- The bounds invariant: every vertex index occurring in a face, a
mountain fold or a valley fold is a valid index into the vertex list. -/
def indicesBounded (p : PatternInstance) : Prop :=
  (∀ f ∈ p.faces, ∀ idx ∈ f, idx < p.vertices.length) ∧
  (∀ e ∈ p.mountain_folds, e.1 < p.vertices.length ∧ e.2 < p.vertices.length) ∧
  (∀ e ∈ p.valley_folds, e.1 < p.vertices.length ∧ e.2 < p.vertices.length)

/-- Claim C3: for every generator and parameter set (any size and angle,
`num_segments ≥ 3` for Yoshimura), every index referenced by a face or fold
edge is strictly less than the length of the vertex list. -/
theorem generators_indices_bounded :
    ∀ (size angle : ℝ) (n : ℕ), 3 ≤ n →
      indicesBounded (create_miura_ori size angle) ∧
      indicesBounded (create_waterbomb size) ∧
      indicesBounded (create_yoshimura size n) := by
  intro size angle n hn
  refine ⟨⟨?_, ?_, ?_⟩, ⟨?_, ?_, ?_⟩, ?_, ?_, ?_⟩
  · show ∀ f ∈ ([[0, 1, 2, 3], [1, 4, 5, 2]] : List (List ℕ)),
      ∀ idx ∈ f, idx < 6
    decide
  · show ∀ e ∈ ([(1, 2)] : List (ℕ × ℕ)), e.1 < 6 ∧ e.2 < 6
    decide
  · show ∀ e ∈ ([(0, 1), (2, 3), (1, 4), (2, 5)] : List (ℕ × ℕ)),
      e.1 < 6 ∧ e.2 < 6
    decide
  · show ∀ f ∈ ([[0, 1, 2], [0, 2, 3], [0, 3, 4], [0, 4, 5], [0, 5, 6],
        [0, 6, 1]] : List (List ℕ)), ∀ idx ∈ f, idx < 7
    decide
  · show ∀ e ∈ ([(0, 2), (0, 4), (0, 6)] : List (ℕ × ℕ)),
      e.1 < 7 ∧ e.2 < 7
    decide
  · show ∀ e ∈ ([(0, 1), (0, 3), (0, 5)] : List (ℕ × ℕ)),
      e.1 < 7 ∧ e.2 < 7
    decide
  · intro f hf idx hidx
    obtain ⟨i, hi, rfl⟩ := List.mem_map.mp hf
    rw [List.mem_range] at hi
    have hj : (i + 1) % n < n := Nat.mod_lt _ (by omega)
    have hlen : (create_yoshimura size n).vertices.length = 2 * n :=
      pairs_flatMap_length _ _ n
    rw [hlen]
    simp only [List.mem_cons, List.not_mem_nil, or_false] at hidx
    rcases hidx with rfl | rfl | rfl | rfl <;> omega
  · intro e he
    obtain ⟨i, hi, rfl⟩ := List.mem_map.mp he
    rw [List.mem_filter, List.mem_range] at hi
    have hlen : (create_yoshimura size n).vertices.length = 2 * n :=
      pairs_flatMap_length _ _ n
    rw [hlen]
    exact ⟨by omega, by omega⟩
  · intro e he
    obtain ⟨i, hi, rfl⟩ := List.mem_map.mp he
    rw [List.mem_filter, List.mem_range] at hi
    have hlen : (create_yoshimura size n).vertices.length = 2 * n :=
      pairs_flatMap_length _ _ n
    rw [hlen]
    exact ⟨by omega, by omega⟩

/-- Witness for claim C3 at `size = 1`, `angle = 45`, `num_segments = 3`. -/
theorem generators_indices_bounded_witness :
    3 ≤ 3 ∧
      (indicesBounded (create_miura_ori 1 45) ∧
       indicesBounded (create_waterbomb 1) ∧
       indicesBounded (create_yoshimura 1 3)) :=
  ⟨le_refl 3, generators_indices_bounded 1 45 3 (le_refl 3)⟩

/-- Two fold edges are the same unordered pair of vertex indices. -/
def sameUnorderedEdge (a b : ℕ × ℕ) : Prop :=
  a = b ∨ (a.1 = b.2 ∧ a.2 = b.1)

instance sameUnorderedEdgeDec (a b : ℕ × ℕ) :
    Decidable (sameUnorderedEdge a b) :=
  decidable_of_iff (a = b ∨ (a.1 = b.2 ∧ a.2 = b.1)) Iff.rfl

/-- Disjointness of the mountain and valley fold sets as unordered pairs. -/
def foldsDisjoint (p : PatternInstance) : Prop :=
  ∀ e₁ ∈ p.mountain_folds, ∀ e₂ ∈ p.valley_folds, ¬ sameUnorderedEdge e₁ e₂

/-- Claim C4: for every generator and valid parameter set, no fold edge is
classified as both mountain and valley, comparing edges as unordered pairs
of vertex indices. -/
theorem generators_folds_disjoint :
    ∀ (size angle : ℝ) (n : ℕ), 0 < size → 3 ≤ n →
      foldsDisjoint (create_miura_ori size angle) ∧
      foldsDisjoint (create_waterbomb size) ∧
      foldsDisjoint (create_yoshimura size n) := by
  intro size angle n _ hn
  refine ⟨?_, ?_, ?_⟩
  · show ∀ e₁ ∈ ([(1, 2)] : List (ℕ × ℕ)),
      ∀ e₂ ∈ ([(0, 1), (2, 3), (1, 4), (2, 5)] : List (ℕ × ℕ)),
        ¬ sameUnorderedEdge e₁ e₂
    decide
  · show ∀ e₁ ∈ ([(0, 2), (0, 4), (0, 6)] : List (ℕ × ℕ)),
      ∀ e₂ ∈ ([(0, 1), (0, 3), (0, 5)] : List (ℕ × ℕ)),
        ¬ sameUnorderedEdge e₁ e₂
    decide
  · intro e₁ h₁ e₂ h₂ hcon
    obtain ⟨i, hi, rfl⟩ := List.mem_map.mp h₁
    obtain ⟨j, hj, rfl⟩ := List.mem_map.mp h₂
    rw [List.mem_filter] at hi hj
    have hie : i % 2 = 0 := by simpa using hi.2
    have hjo : ¬ j % 2 = 0 := by simpa using hj.2
    rcases hcon with heq | ⟨ha, hb⟩
    · rw [Prod.mk.injEq] at heq
      omega
    · simp only at ha hb
      omega

/-- Witness for claim C4 at `size = 1`, `angle = 45`, `num_segments = 3`. -/
theorem generators_folds_disjoint_witness :
    (0 : ℝ) < 1 ∧ 3 ≤ 3 ∧
      (foldsDisjoint (create_miura_ori 1 45) ∧
       foldsDisjoint (create_waterbomb 1) ∧
       foldsDisjoint (create_yoshimura 1 3)) :=
  ⟨by norm_num, le_refl 3,
    generators_folds_disjoint 1 45 3 (by norm_num) (le_refl 3)⟩

/-- The cyclically consecutive index pairs of a face: entry `k` paired with
entry `(k+1) mod len`. -/
def cyclicPairs (f : List ℕ) : List (ℕ × ℕ) :=
  (List.range f.length).map
    (fun k => (f.getD k 0, f.getD ((k + 1) % f.length) 0))

/-- An edge coincides (as an unordered pair) with a cyclically consecutive
pair of entries of some face in the list. -/
def edgeOnSomeFace (e : ℕ × ℕ) (faces : List (List ℕ)) : Prop :=
  ∃ f ∈ faces, ∃ q ∈ cyclicPairs f, q = e ∨ q = (e.2, e.1)

/-- Every fold edge of the instance, mountain or valley, lies on the edge
of some face. -/
def foldsOnFaces (p : PatternInstance) : Prop :=
  (∀ e ∈ p.mountain_folds, edgeOnSomeFace e p.faces) ∧
  (∀ e ∈ p.valley_folds, edgeOnSomeFace e p.faces)

/-- Claim C10: for every generator and valid parameter set, every fold edge
appears as a cyclically consecutive pair of vertex indices of at least one
face. -/
theorem generators_folds_on_faces :
    ∀ (size angle : ℝ) (n : ℕ), 3 ≤ n →
      foldsOnFaces (create_miura_ori size angle) ∧
      foldsOnFaces (create_waterbomb size) ∧
      foldsOnFaces (create_yoshimura size n) := by
  intro size angle n hn
  refine ⟨?_, ?_, ?_⟩
  · show (∀ e ∈ ([(1, 2)] : List (ℕ × ℕ)),
        edgeOnSomeFace e [[0, 1, 2, 3], [1, 4, 5, 2]]) ∧
      (∀ e ∈ ([(0, 1), (2, 3), (1, 4), (2, 5)] : List (ℕ × ℕ)),
        edgeOnSomeFace e [[0, 1, 2, 3], [1, 4, 5, 2]])
    unfold edgeOnSomeFace
    decide
  · show (∀ e ∈ ([(0, 2), (0, 4), (0, 6)] : List (ℕ × ℕ)),
        edgeOnSomeFace e [[0, 1, 2], [0, 2, 3], [0, 3, 4], [0, 4, 5],
          [0, 5, 6], [0, 6, 1]]) ∧
      (∀ e ∈ ([(0, 1), (0, 3), (0, 5)] : List (ℕ × ℕ)),
        edgeOnSomeFace e [[0, 1, 2], [0, 2, 3], [0, 3, 4], [0, 4, 5],
          [0, 5, 6], [0, 6, 1]])
    unfold edgeOnSomeFace
    decide
  · have key : ∀ i, i < n →
        edgeOnSomeFace (2 * i, 2 * i + 1) (create_yoshimura size n).faces := by
      intro i hi
      refine ⟨[2 * i, 2 * i + 1, 2 * ((i + 1) % n) + 1, 2 * ((i + 1) % n)],
        List.mem_map.mpr ⟨i, List.mem_range.mpr hi, rfl⟩,
        (2 * i, 2 * i + 1), ?_, Or.inl rfl⟩
      exact List.mem_map.mpr ⟨0, List.mem_range.mpr (by norm_num), rfl⟩
    constructor
    · intro e he
      obtain ⟨i, hi, rfl⟩ := List.mem_map.mp he
      rw [List.mem_filter, List.mem_range] at hi
      exact key i hi.1
    · intro e he
      obtain ⟨i, hi, rfl⟩ := List.mem_map.mp he
      rw [List.mem_filter, List.mem_range] at hi
      exact key i hi.1

/-- Witness for claim C10 at `size = 1`, `angle = 45`, `num_segments = 3`. -/
theorem generators_folds_on_faces_witness :
    3 ≤ 3 ∧
      (foldsOnFaces (create_miura_ori 1 45) ∧
       foldsOnFaces (create_waterbomb 1) ∧
       foldsOnFaces (create_yoshimura 1 3)) :=
  ⟨le_refl 3, generators_folds_on_faces 1 45 3 (le_refl 3)⟩

/-- Claim C8: the renderer produces exactly one mesh surface per face, and
for the trace of face `fi` the three plotly index lists encode exactly the
fan triangles `(0, m, m+1)` for `m = 1 .. len(face) - 2`, with opacity 0.7
and the requested color scheme. -/
theorem plot_origami_lattice_fan :
    ∀ (vertices : List (ℝ × ℝ × ℝ)) (faces : List (List ℕ))
      (mountain_folds valley_folds : List (ℕ × ℕ)) (colorscale : String),
      List.countP isMesh
          (plot_origami_lattice vertices faces mountain_folds valley_folds
            colorscale) = faces.length ∧
      ∀ fi, fi < faces.length →
        traceTriangles
            ((plot_origami_lattice vertices faces mountain_folds valley_folds
              colorscale).getD fi defaultTrace) =
          (List.range' 1 ((faces.getD fi []).length - 2)).map
            (fun m => (0, m, m + 1)) ∧
        traceOpacity
            ((plot_origami_lattice vertices faces mountain_folds valley_folds
              colorscale).getD fi defaultTrace) = some (7 / 10) ∧
        traceColorscale
            ((plot_origami_lattice vertices faces mountain_folds valley_folds
              colorscale).getD fi defaultTrace) = some colorscale := by
  intro vertices faces mountain_folds valley_folds colorscale
  constructor
  · unfold plot_origami_lattice
    rw [List.countP_append, List.countP_append, List.countP_map,
      List.countP_map, List.countP_map]
    have hf : (isMesh ∘ fun face : List ℕ =>
        let vertices_face := face.map (fun idx => vertices.getD idx (0, 0, 0))
        Trace.mesh (vertices_face.map vx) (vertices_face.map vy)
          (vertices_face.map vz)
          (List.replicate (face.length - 2) 0)
          (List.range' 1 (face.length - 2))
          (List.range' 2 (face.length - 2))
          (7 / 10) colorscale) = fun _ => true := rfl
    have hm : (isMesh ∘ fun fold : ℕ × ℕ =>
        Trace.line
          [vx (vertices.getD fold.1 (0, 0, 0)), vx (vertices.getD fold.2 (0, 0, 0))]
          [vy (vertices.getD fold.1 (0, 0, 0)), vy (vertices.getD fold.2 (0, 0, 0))]
          [vz (vertices.getD fold.1 (0, 0, 0)), vz (vertices.getD fold.2 (0, 0, 0))]
          "red" 4 false "Mountain fold") = fun _ => false := rfl
    have hv : (isMesh ∘ fun fold : ℕ × ℕ =>
        Trace.line
          [vx (vertices.getD fold.1 (0, 0, 0)), vx (vertices.getD fold.2 (0, 0, 0))]
          [vy (vertices.getD fold.1 (0, 0, 0)), vy (vertices.getD fold.2 (0, 0, 0))]
          [vz (vertices.getD fold.1 (0, 0, 0)), vz (vertices.getD fold.2 (0, 0, 0))]
          "blue" 4 true "Valley fold") = fun _ => false := rfl
    rw [hf, hm, hv, List.countP_true, List.countP_false]
    simp
  · intro fi hfi
    have hflen : fi < (faces.map (fun face =>
        let vertices_face := face.map (fun idx => vertices.getD idx (0, 0, 0))
        Trace.mesh (vertices_face.map vx) (vertices_face.map vy)
          (vertices_face.map vz)
          (List.replicate (face.length - 2) 0)
          (List.range' 1 (face.length - 2))
          (List.range' 2 (face.length - 2))
          (7 / 10) colorscale)).length := by
      rw [List.length_map]; exact hfi
    unfold plot_origami_lattice
    rw [List.append_assoc, List.getD_append _ _ _ _ hflen,
      List.getD_eq_getElem _ _ hflen, List.getElem_map]
    rw [List.getD_eq_getElem faces [] hfi]
    refine ⟨?_, rfl, rfl⟩
    show (List.replicate (faces[fi].length - 2) 0).zip
        ((List.range' 1 (faces[fi].length - 2)).zip
          (List.range' 2 (faces[fi].length - 2))) =
      (List.range' 1 (faces[fi].length - 2)).map (fun m => (0, m, m + 1))
    exact fan_triangles (faces[fi].length - 2)

/-- Witness for claim C8: a single quadrilateral face, yielding the two fan
triangles `(0,1,2)` and `(0,2,3)`. -/
theorem plot_origami_lattice_fan_witness :
    0 < ([[0, 1, 2, 3]] : List (List ℕ)).length ∧
      (traceTriangles
          ((plot_origami_lattice [] [[0, 1, 2, 3]] [] [] "Viridis").getD 0
            defaultTrace) =
        (List.range' 1 ((([[0, 1, 2, 3]] : List (List ℕ)).getD 0 []).length - 2)).map
          (fun m => (0, m, m + 1)) ∧
      traceOpacity
          ((plot_origami_lattice [] [[0, 1, 2, 3]] [] [] "Viridis").getD 0
            defaultTrace) = some (7 / 10) ∧
      traceColorscale
          ((plot_origami_lattice [] [[0, 1, 2, 3]] [] [] "Viridis").getD 0
            defaultTrace) = some "Viridis") :=
  ⟨by decide,
    (plot_origami_lattice_fan [] [[0, 1, 2, 3]] [] [] "Viridis").2 0 (by decide)⟩
